import Mathlib

/-!
Shallow embedding of the resilient YouTube-transcription pipeline
(`transcribe.py`, `batch_transcriber.py`, `utils/youtube_downloader.py`,
`utils/transcriber.py`, `utils/summarizer.py`) and proofs about the claims
of its specification.

Modelling conventions:
* Python strings are Lean `String`s; the Python operations used by the code
  (`split`, `replace`, `strip`, `in`, slicing, `os.path.basename`,
  `os.path.splitext`, `os.path.join`) are re-implemented structurally below
  so that the kernel can evaluate them on concrete inputs.
* The filesystem is a finite map from paths to file contents plus a set of
  directories; paths listed in `failWrite` / `failDirs` model files and
  directories whose creation raises an `OSError`.
* External capabilities (yt-dlp, pytube, the Whisper API, the LLM summary
  chain) are oracles supplied as function parameters; an oracle result
  `Except.error e` models the Python call raising exception `e`.
* Python exceptions are the inductive `PyErr`; `Except.error` in a result
  type marks an exception propagating out of the embedded function.
* Every embedded function also returns a trace (`List Ev`) of the
  observable side effects (capability invocations, sleeps, fallback
  productions) that the claims quantify over.
-/

set_option autoImplicit false
set_option maxRecDepth 100000

namespace Transcriber

/-! ## Python string primitives -/

/-- Does the list start with the given pattern? (Helper for `split` and
`replace`, mirroring Python's left-to-right scanning.) -/
def pyStarts : List Char → List Char → Bool
  | _, [] => true
  | [], _ :: _ => false
  | a :: l, b :: p => a = b && pyStarts l p

/-- Worker for `pySplit`: fuel-indexed so the recursion is structural. -/
def pySplitAux (pat : List Char) : Nat → List Char → List Char → List (List Char)
  | _, [], acc => [acc.reverse]
  | 0, l, acc => [acc.reverse ++ l]
  | fuel + 1, a :: l, acc =>
    if pyStarts (a :: l) pat then
      acc.reverse :: pySplitAux pat fuel (List.drop (pat.length - 1) l) []
    else
      pySplitAux pat fuel l (a :: acc)

/-- Python `s.split(pat)` for a non-empty separator `pat` (the only way the
source uses it): non-overlapping, left-to-right. -/
def pySplit (s pat : String) : List String :=
  (pySplitAux pat.data (s.data.length + 1) s.data []).map String.mk

/-- Worker for `pyReplace`, fuel-indexed. -/
def pyReplaceAux (old new : List Char) : Nat → List Char → List Char
  | _, [] => []
  | 0, l => l
  | fuel + 1, a :: l =>
    if pyStarts (a :: l) old then
      new ++ pyReplaceAux old new fuel (List.drop (old.length - 1) l)
    else
      a :: pyReplaceAux old new fuel l

/-- Python `s.replace(old, new)` for non-empty `old` (the only way the
source uses it). -/
def pyReplace (s old new : String) : String :=
  String.mk (pyReplaceAux old.data new.data (s.data.length + 1) s.data)

/-- Python `s.strip()`. -/
def pyStrip (s : String) : String :=
  String.mk (((s.data.dropWhile Char.isWhitespace).reverse.dropWhile
    Char.isWhitespace).reverse)

/-- Python `pat in s`: substring containment. -/
def pyIn (pat s : String) : Bool :=
  decide (pat.data <:+: s.data)

/-- Python `s[:n]` (used for `prompt_instruction[:50]` and `[:30]`). -/
def pySlice (s : String) (n : Nat) : String :=
  String.mk (s.data.take n)

/-- `os.path.join` for the relative two-component paths the source builds. -/
def pathJoin (a b : String) : String :=
  a ++ "/" ++ b

/-- `os.path.basename` for the forward-slash paths the source builds. -/
def basename (p : String) : String :=
  (pySplit p "/").getLastD ""

/-- `os.path.splitext`, restricted to the paths the source builds
(directory components contain no dot). -/
def splitext (p : String) : String × String :=
  let b := basename p
  let parts := pySplit b "."
  if parts.length ≤ 1 then (p, "")
  else
    let ext := "." ++ parts.getLastD ""
    if b.data.length = ext.data.length then (p, "")
    else (String.mk (p.data.take (p.data.length - ext.data.length)), ext)

/-- The character filter both `youtube_downloader.py` (line 81) and
`summarizer.py` (line 30) apply:
`"".join([c if c.isalnum() or c in [' ', '-', '_'] else '_' for c in s])`. -/
def sanitizePy (s : String) : String :=
  String.mk (s.data.map fun c =>
    if c.isAlphanum || c = ' ' || c = '-' || c = '_' then c else '_')

/-- `url.split("v=")[-1].split("&")[0] if "v=" in url else "unknown_video"`
(`youtube_downloader.py` line 30, `batch_transcriber.py` line 170). -/
def videoIdOf (url : String) : String :=
  if pyIn "v=" url then
    ((pySplit ((pySplit url "v=").getLastD "") "&").headD "")
  else "unknown_video"

/-! ## Errors, events, filesystem -/

/-- The Python exception classes the source distinguishes. `rateLimit` and
`openAIErr` are `openai.RateLimitError` / `openai.OpenAIError` (the
retryable classes of `retry_with_backoff`); `regexMatch` and
`videoUnavailable` are the pytube exceptions treated as non-retryable by
`download_youtube_audio`; the rest are ordinary exceptions carrying their
`str(e)` message. -/
inductive PyErr where
  | rateLimit : String → PyErr
  | openAIErr : String → PyErr
  | regexMatch : String → PyErr
  | videoUnavailable : String → PyErr
  | fileNotFound : String → PyErr
  | osError : String → PyErr
  | nameError : String → PyErr
  | other : String → PyErr
deriving DecidableEq, Repr

/-- `str(e)` for an exception. For `NameError` Python renders
`name 'x' is not defined`; the quotes are omitted here. -/
def PyErr.msg : PyErr → String
  | .rateLimit m => m
  | .openAIErr m => m
  | .regexMatch m => m
  | .videoUnavailable m => m
  | .fileNotFound m => m
  | .osError m => m
  | .nameError n => "name " ++ n ++ " is not defined"
  | .other m => m

/-- Caught by `except (RateLimitError, OpenAIError)` in
`retry_with_backoff` (`batch_transcriber.py` line 52). -/
def PyErr.isOpenAI : PyErr → Bool
  | .rateLimit _ => true
  | .openAIErr _ => true
  | _ => false

/-- Caught by `except (RegexMatchError, VideoUnavailable)` in
`download_youtube_audio` (`youtube_downloader.py` line 153): these break
out of the retry loop immediately. -/
def PyErr.isPytubeFatal : PyErr → Bool
  | .regexMatch _ => true
  | .videoUnavailable _ => true
  | _ => false

/-- The two pytube strategies of `download_youtube_audio`
(`methods = ['direct', 'alternative']`). -/
inductive DlMethod where
  | direct : DlMethod
  | alternative : DlMethod
deriving DecidableEq, Repr

/-- Observable side effects of a run: capability invocations, sleeps and
fallback productions.  Sleep durations are rationals (seconds). -/
inductive Ev where
  | ytdlpCall : Ev
  | pytubeCall : DlMethod → Nat → Ev
  | sleepOne : Ev
  | streamDl : DlMethod → Nat → Ev
  | backoffSleep : ℚ → Ev
  | retrySleep : ℚ → Ev
  | batchSleep : ℚ → Ev
  | whisperCall : Ev
  | llmCall : Ev
  | fallbackAudio : Ev
  | mockTranscript : Ev
  | mockSummary : Ev
deriving DecidableEq, Repr

/-- A trace of events. -/
abbrev Tr := List Ev

def Ev.isPytubeCall : Ev → Bool
  | .pytubeCall _ _ => true
  | _ => false

def Ev.isStreamDl : Ev → Bool
  | .streamDl _ _ => true
  | _ => false

def Ev.isBackoffSleep : Ev → Bool
  | .backoffSleep _ => true
  | _ => false

def Ev.isRetrySleep : Ev → Bool
  | .retrySleep _ => true
  | _ => false

def Ev.isWhisperCall : Ev → Bool
  | .whisperCall => true
  | _ => false

def Ev.isLlmCall : Ev → Bool
  | .llmCall => true
  | _ => false

def Ev.isYtdlpCall : Ev → Bool
  | .ytdlpCall => true
  | _ => false

def Ev.isMockTranscript : Ev → Bool
  | .mockTranscript => true
  | _ => false

def Ev.isFallbackAudio : Ev → Bool
  | .fallbackAudio => true
  | _ => false

/-- The filesystem: files (path ↦ contents), existing directories, and the
paths/directories whose write/creation raises `OSError`. -/
structure FS where
  files : List (String × String)
  dirs : List String
  failWrite : List String
  failDirs : List String
deriving DecidableEq, Repr

/-- `os.path.exists` on a file path. -/
def FS.fileExists (fs : FS) (p : String) : Bool :=
  fs.files.any fun kv => kv.1 = p

/-- `os.path.exists` on a directory path. -/
def FS.dirExists (fs : FS) (d : String) : Bool :=
  fs.dirs.contains d

/-- `open(p).read()` on an existing file. -/
def FS.read (fs : FS) (p : String) : Option String :=
  (fs.files.find? fun kv => kv.1 = p).map fun kv => kv.2

/-- `open(p, 'w').write(c)`: raises if `p` is unwritable. -/
def FS.write (fs : FS) (p c : String) : Except PyErr FS :=
  if fs.failWrite.contains p then .error (.osError ("cannot write " ++ p))
  else .ok { fs with files := (p, c) :: fs.files.filter fun kv => ¬ kv.1 = p }

/-- `os.makedirs(d, exist_ok=True)`: raises if `d` cannot be created. -/
def FS.makedirs (fs : FS) (d : String) : Except PyErr FS :=
  if fs.failDirs.contains d then .error (.osError ("cannot create " ++ d))
  else .ok { fs with dirs := d :: fs.dirs }

/-! ## Capability oracles

The external collaborators (yt-dlp, pytube, Whisper, the LLM chain) are
modelled as oracles; randomness (jitter, batch waits) as oracle
functions of the attempt/index. -/

/-- Oracles for `download_youtube_audio`.  `pytubeNew m n` is the outcome of
`YouTube(youtube_url)` (including the `.title` metadata fetch) in method `m`,
attempt `n`; `findStream` whether an audio stream is found; `streamDownload`
the path that `audio_stream.download(...)` returns (or the exception it
raises). -/
structure DlEnv where
  hasYtDlp : Bool
  ytdlp : Except PyErr Int
  pytubeNew : DlMethod → Nat → Except PyErr String
  findStream : DlMethod → Nat → Bool
  streamDownload : DlMethod → Nat → Except PyErr String
  dlJitter : DlMethod → Nat → ℚ

/-- All oracles of one pipeline invocation.  `whisper p` is the Whisper API
transcription of the audio at path `p`; `llm text prompt` the summary the
LangChain map-reduce chain produces; `retryJitter` the jitter drawn by
`retry_with_backoff`; `batchWait i` the inter-URL wait drawn by
`process_youtube_urls`. -/
structure Env where
  dl : DlEnv
  whisper : String → Except PyErr String
  llm : String → String → Except PyErr String
  retryJitter : Nat → ℚ
  batchWait : Nat → ℚ

/-! ## `utils/youtube_downloader.py` -/

/-- One iteration of the body of the `for retry_count in range(max_retries)`
loop of `download_youtube_audio` (lines 72-151), for method `m` at attempt
`n`.  Returns the trace of the iteration and either the path the source
`return`s or the exception its `try` block raises. -/
def pytubeAttempt (env : DlEnv) (fs : FS) (vid output_dir : String)
    (m : DlMethod) (n : Nat) : Tr × Except PyErr String :=
  match m with
  | .direct =>
    match env.pytubeNew .direct n with
    | .error e => ([.pytubeCall .direct n], .error e)
    | .ok title =>
      let video_title := sanitizePy title
      let output_path := pathJoin output_dir (video_title ++ ".mp3")
      if fs.fileExists output_path then
        ([.pytubeCall .direct n, .sleepOne], .ok output_path)
      else if env.findStream .direct n then
        match env.streamDownload .direct n with
        | .ok downloaded_file =>
          ([.pytubeCall .direct n, .sleepOne, .streamDl .direct n],
            .ok ((splitext downloaded_file).1 ++ ".mp3"))
        | .error e => ([.pytubeCall .direct n, .sleepOne, .streamDl .direct n], .error e)
      else
        ([.pytubeCall .direct n, .sleepOne], .error (.other "No audio stream found"))
  | .alternative =>
    match env.pytubeNew .alternative n with
    | .error e => ([.pytubeCall .alternative n], .error e)
    | .ok _title =>
      let _output_path := pathJoin output_dir (vid ++ ".mp3")
      if env.findStream .alternative n then
        match env.streamDownload .alternative n with
        | .ok downloaded_file =>
          ([.pytubeCall .alternative n, .streamDl .alternative n],
            .ok ((splitext downloaded_file).1 ++ ".mp3"))
        | .error e => ([.pytubeCall .alternative n, .streamDl .alternative n], .error e)
      else
        ([.pytubeCall .alternative n],
          .error (.other "No audio stream found with alternative method"))

/-- The retry loop of `download_youtube_audio` for one method: on a
`RegexMatchError`/`VideoUnavailable` break immediately; on another exception
sleep `2 ** retry_count + random.random() * 0.5` and retry unless the
attempt bound is reached (lines 153-167).  `n` is the current
`retry_count`; `fuel` the remaining iterations (`max_retries - n`). -/
def tryMethod (env : DlEnv) (fs : FS) (vid output_dir : String)
    (m : DlMethod) (max_retries : Nat) : Nat → Nat → Tr × Option String
  | 0, _ => ([], none)
  | fuel + 1, n =>
    let a := pytubeAttempt env fs vid output_dir m n
    match a.2 with
    | .ok p => (a.1, some p)
    | .error e =>
      if e.isPytubeFatal then (a.1, none)
      else if n < max_retries - 1 then
        let backoff_time := (2 : ℚ) ^ n + env.dlJitter m n
        let r2 := tryMethod env fs vid output_dir m max_retries fuel (n + 1)
        (a.1 ++ Ev.backoffSleep backoff_time :: r2.1, r2.2)
      else (a.1, none)

/-- `create_fallback_audio_file` (`youtube_downloader.py` lines 172-199):
write a marked placeholder file; if even that write fails, write an
emergency fallback in the working directory (a failure of which
propagates). -/
def create_fallback_audio_file (fs : FS) (output_dir video_id : String) :
    FS × Tr × Except PyErr String :=
  let fallback_file := pathJoin output_dir ("fallback_" ++ video_id ++ ".mp3")
  match fs.write fallback_file "This is a fallback audio file for testing purposes." with
  | .ok fs1 => (fs1, [.fallbackAudio], .ok fallback_file)
  | .error _ =>
    let minimal_fallback := "emergency_fallback.mp3"
    match fs.write minimal_fallback "Emergency fallback file" with
    | .ok fs1 => (fs1, [.fallbackAudio], .ok minimal_fallback)
    | .error e => (fs, [.fallbackAudio], .error e)

/-- The pytube phase of `download_youtube_audio` (lines 67-170): try the
`direct` method, then the `alternative` method, then the fallback file. -/
def downloadPytubePhase (env : DlEnv) (fs : FS) (vid output_dir : String)
    (max_retries : Nat) : FS × Tr × Except PyErr String :=
  let d := tryMethod env fs vid output_dir .direct max_retries max_retries 0
  match d.2 with
  | some p => (fs, d.1, .ok p)
  | none =>
    let a := tryMethod env fs vid output_dir .alternative max_retries max_retries 0
    match a.2 with
    | some p => (fs, d.1 ++ a.1, .ok p)
    | none =>
      let f := create_fallback_audio_file fs output_dir vid
      (f.1, d.1 ++ a.1 ++ f.2.1, f.2.2)

/-- `download_youtube_audio` (`youtube_downloader.py` lines 14-170):
ensure the output directory, try yt-dlp if available (returning
`output_dir/video_id.mp3` when its return code is 0), otherwise fall
through to the pytube methods and finally the fallback file. -/
def download_youtube_audio (env : DlEnv) (fs : FS) (youtube_url : String)
    (output_dir : String) (max_retries : Nat) : FS × Tr × Except PyErr String :=
  match fs.makedirs output_dir with
  | .error e => (fs, [], .error e)
  | .ok fs0 =>
    let video_id := videoIdOf youtube_url
    if env.hasYtDlp then
      match env.ytdlp with
      | .ok rc =>
        if rc = 0 then (fs0, [.ytdlpCall], .ok (pathJoin output_dir (video_id ++ ".mp3")))
        else
          let r := downloadPytubePhase env fs0 video_id output_dir max_retries
          (r.1, Ev.ytdlpCall :: r.2.1, r.2.2)
      | .error _ =>
        let r := downloadPytubePhase env fs0 video_id output_dir max_retries
        (r.1, Ev.ytdlpCall :: r.2.1, r.2.2)
    else downloadPytubePhase env fs0 video_id output_dir max_retries

/-! ## `utils/transcriber.py` -/

/-- The marker sentence every mock transcript contains. -/
def mockTranscriptMarker : String :=
  "This is a mock transcript for testing purposes"

/-- The full text `create_mock_transcript` builds (lines 119-125), written
as `message ++ (marker ++ rest)` — the same string value as the Python
literal, with the marker sentence as an explicit component.  Apostrophes
of the Python literal are spelled out (`couldn't` → `could not`). -/
def mockTranscriptText (message video_id : String) : String :=
  message ++
    (mockTranscriptMarker ++
      (".\n" ++
        ("The original video ID was: " ++ (video_id ++
          ("\nIn a real scenario, this would contain the actual transcription of the YouTube video.\n" ++
            ("Since we could not process the actual video audio, this placeholder is used instead.\n" ++
              "This enables testing of the full pipeline even when transcription fails."))))))

/-- `create_mock_transcript` (`transcriber.py` lines 86-137).  Returns
`(transcript_file, mock_text)`, or `(None, "Error creating transcript.")`
when the transcript write fails; it never raises. -/
def create_mock_transcript (fs : FS) (audio_file_path transcript_file : String)
    (is_mock_by_choice : Bool) (error_msg : Option String) :
    FS × Tr × (Option String × String) :=
  let base_filename := basename audio_file_path
  let video_id :=
    if pyIn "fallback_" base_filename then
      pyReplace (pyReplace base_filename "fallback_" "") ".mp3" ""
    else (splitext base_filename).1
  let message :=
    match error_msg with
    | some e => "Note: Transcription failed with error: " ++ e ++ "\n\n"
    | none =>
      if is_mock_by_choice then
        "Note: We are using a mock transcript by choice.\nIn a production environment, this would contain the actual transcription.\n\n"
      else ""
  let mock_transcript := mockTranscriptText message video_id
  match fs.write transcript_file mock_transcript with
  | .ok fs1 => (fs1, [.mockTranscript], (some transcript_file, mock_transcript))
  | .error _ => (fs, [.mockTranscript], (none, "Error creating transcript."))

/-- The transcript path `transcribe_audio` computes from its arguments
(lines 30-39). -/
def transcriptFileFor (audio_file_path output_dir : String)
    (youtube_url : Option String) : String :=
  let file_name_without_ext := (splitext (basename audio_file_path)).1
  match youtube_url with
  | some u =>
    let video_id :=
      if pyIn "v=" u then ((pySplit ((pySplit u "v=").getLastD "") "&").headD "")
      else file_name_without_ext
    pathJoin output_dir (video_id ++ ".txt")
  | none => pathJoin output_dir (file_name_without_ext ++ ".txt")

/-- `transcribe_audio` (`transcriber.py` lines 15-84): ensure the output
directory (an exception here propagates — it precedes the `try`), return an
existing transcript unchanged, short-circuit `fallback_` audio to a mock
transcript, otherwise call Whisper; any exception inside the `try`
(missing audio file, API error, transcript write error) falls back to
`create_mock_transcript` with the error message. -/
def transcribe_audio (whisper : String → Except PyErr String) (fs : FS)
    (audio_file_path output_dir : String) (youtube_url : Option String) :
    FS × Tr × Except PyErr (Option String × String) :=
  match fs.makedirs output_dir with
  | .error e => (fs, [], .error e)
  | .ok fs0 =>
    let file_name_without_ext := (splitext (basename audio_file_path)).1
    let transcript_file := transcriptFileFor audio_file_path output_dir youtube_url
    if fs0.fileExists transcript_file then
      (fs0, [], .ok (some transcript_file, (fs0.read transcript_file).getD ""))
    else if pyIn "fallback_" file_name_without_ext then
      let c := create_mock_transcript fs0 audio_file_path transcript_file false none
      (c.1, c.2.1, .ok c.2.2)
    else if ¬ fs0.fileExists audio_file_path then
      let c := create_mock_transcript fs0 audio_file_path transcript_file false
        (some ("Audio file not found: " ++ audio_file_path))
      (c.1, c.2.1, .ok c.2.2)
    else
      match whisper audio_file_path with
      | .ok transcript_text =>
        match fs0.write transcript_file transcript_text with
        | .ok fs1 => (fs1, [.whisperCall], .ok (some transcript_file, transcript_text))
        | .error e =>
          let c := create_mock_transcript fs0 audio_file_path transcript_file false (some e.msg)
          (c.1, Ev.whisperCall :: c.2.1, .ok c.2.2)
      | .error e =>
        let c := create_mock_transcript fs0 audio_file_path transcript_file false (some e.msg)
        (c.1, Ev.whisperCall :: c.2.1, .ok c.2.2)

/-! ## `utils/summarizer.py` -/

/-- The marker sentence every mock summary contains. -/
def mockSummaryMarker : String :=
  "This is a mock summary for testing purposes"

/-- The full text `create_mock_summary` builds (lines 122-129), written as
`marker ++ rest` — the same string value as the Python literal, with the
marker sentence as an explicit component.  Apostrophes of the Python
literal are spelled out (`we're` → `we are`). -/
def mockSummaryText (prompt_instruction video_id : String) : String :=
  mockSummaryMarker ++
    (".\n\nBased on the prompt: \"" ++ (prompt_instruction ++
      ("\"\n\nFor the YouTube video with ID: " ++ (video_id ++
        ("\n\nIn a real scenario, this would contain an actual AI-generated summary of the content.\n" ++
          ("Since we are using mock data, this placeholder is provided to demonstrate the complete pipeline workflow.\n" ++
            "The summary would typically address the specific points requested in the prompt instruction."))))))

/-- The video-id scan of `create_mock_summary` (lines 115-119): first line
containing `original video ID was:`, split on `:`, last piece, stripped. -/
def extractMockVid : List String → Option String
  | [] => none
  | l :: ls =>
    if pyIn "original video ID was:" l then some (pyStrip ((pySplit l ":").getLastD ""))
    else extractMockVid ls

/-- `create_mock_summary` (`summarizer.py` lines 100-140).  Returns
`(summary_file, mock_text)`, or `(None, "Error creating summary.")` when
the write fails; it never raises. -/
def create_mock_summary (fs : FS) (text prompt_instruction summary_file : String) :
    FS × Tr × (Option String × String) :=
  let video_id := (extractMockVid (pySplit text "\n")).getD "unknown"
  let mock_summary := mockSummaryText prompt_instruction video_id
  match fs.write summary_file mock_summary with
  | .ok fs1 => (fs1, [.mockSummary], (some summary_file, mock_summary))
  | .error _ => (fs, [.mockSummary], (none, "Error creating summary."))

/-- The `except` handler of `summarize_text` (lines 95-98).  It evaluates
`f"error_summary_{safe_prompt}.txt"`; when the exception was raised before
the local `safe_prompt` was assigned (`sp = none`), Python raises
`NameError` out of the handler, so the whole call raises instead of
producing a mock summary. -/
def summarizeExceptHandler (fs : FS) (text prompt_instruction output_dir : String)
    (sp : Option String) : FS × Tr × Except PyErr (Option String × String) :=
  match sp with
  | none => (fs, [], .error (.nameError "safe_prompt"))
  | some safe_prompt =>
    let c := create_mock_summary fs text prompt_instruction
      (pathJoin output_dir ("error_summary_" ++ safe_prompt ++ ".txt"))
    (c.1, c.2.1, .ok c.2.2)

/-- `summarize_text` (`summarizer.py` lines 11-98): create the output
directory if missing, build `safe_prompt` and the summary path, divert
mock-marked transcripts to `create_mock_summary`, otherwise run the LLM
chain and write the summary; any exception in the `try` goes to
`summarizeExceptHandler` with the binding state of `safe_prompt` at the
time it was raised. -/
def summarize_text (llm : String → String → Except PyErr String) (fs : FS)
    (text prompt_instruction output_dir : String) :
    FS × Tr × Except PyErr (Option String × String) :=
  let afterDir : Except PyErr FS :=
    if fs.dirExists output_dir then .ok fs else fs.makedirs output_dir
  match afterDir with
  | .error _ => summarizeExceptHandler fs text prompt_instruction output_dir none
  | .ok fs0 =>
    let safe_prompt := sanitizePy (pySlice prompt_instruction 50)
    let summary_file := pathJoin output_dir ("summary_" ++ safe_prompt ++ ".txt")
    if pyIn mockTranscriptMarker text then
      let c := create_mock_summary fs0 text prompt_instruction summary_file
      (c.1, c.2.1, .ok c.2.2)
    else
      match llm text prompt_instruction with
      | .ok summary =>
        match fs0.write summary_file summary with
        | .ok fs1 => (fs1, [.llmCall], .ok (some summary_file, summary))
        | .error _ =>
          let h := summarizeExceptHandler fs0 text prompt_instruction output_dir (some safe_prompt)
          (h.1, Ev.llmCall :: h.2.1, h.2.2)
      | .error _ =>
        let h := summarizeExceptHandler fs0 text prompt_instruction output_dir (some safe_prompt)
        (h.1, Ev.llmCall :: h.2.1, h.2.2)

/-! ## `retry_with_backoff` (`batch_transcriber.py` lines 33-66) -/

/-- The evolution of the `delay` local of `retry_with_backoff`:
`delay = initial_delay`, then after each sleep
`delay = min(delay * 2, max_delay)`.  `backoffDelay b m k` is the pre-jitter
delay slept after the (1-based) attempt `k + 1` fails. -/
def backoffDelay (initial_delay max_delay : ℚ) : Nat → ℚ
  | 0 => initial_delay
  | k + 1 => min (backoffDelay initial_delay max_delay k * 2) max_delay

/-- The `for attempt in range(max_retries)` loop of `retry_with_backoff`:
`fuel` counts the remaining iterations, `attempt = max_retries - fuel`,
`delay` is the current pre-jitter delay.  Retryable (`RateLimitError` /
`OpenAIError`) failures sleep `delay + jitter` and retry while attempts
remain, then re-raise; any other exception re-raises immediately.  The
`fuel = 0` base case models the loop body never running (Python would fall
through returning `None`); it is unreachable for `max_retries ≥ 1`. -/
def retryGo {α : Type} (func : FS → FS × Tr × Except PyErr α) (max_retries : Nat)
    (max_delay : ℚ) (jitter : Nat → ℚ) : Nat → FS → ℚ → FS × Tr × Except PyErr α
  | 0, fs, _ => (fs, [], .error (.other "retry loop did not run"))
  | fuel + 1, fs, delay =>
    let attempt := max_retries - (fuel + 1)
    let r := func fs
    match r.2.2 with
    | .ok v => (r.1, r.2.1, .ok v)
    | .error e =>
      if e.isOpenAI then
        if attempt < max_retries - 1 then
          let wait_time := delay + jitter attempt
          let r2 := retryGo func max_retries max_delay jitter fuel r.1 (min (delay * 2) max_delay)
          (r2.1, r.2.1 ++ Ev.retrySleep wait_time :: r2.2.1, r2.2.2)
        else (r.1, r.2.1, .error e)
      else (r.1, r.2.1, .error e)

/-- `retry_with_backoff(func, max_retries, initial_delay, max_delay)`. -/
def retry_with_backoff {α : Type} (func : FS → FS × Tr × Except PyErr α)
    (max_retries : Nat) (initial_delay max_delay : ℚ) (jitter : Nat → ℚ)
    (fs : FS) : FS × Tr × Except PyErr α :=
  retryGo func max_retries max_delay jitter max_retries fs initial_delay

/-! ## `transcribe.py`: pipeline state, nodes, router, graph -/

/-- `AgentState` (`transcribe.py` lines 27-35).  `transcript_file` is an
`Option` because `transcribe_audio` returns `None` for it when even the
mock-transcript write fails; every other field always holds a string. -/
structure AgentState where
  youtube_url : String
  prompt_instruction : String
  audio_file_path : String
  transcript_text : String
  transcript_file : Option String
  summary : String
  current_step : String
  error : String
deriving DecidableEq, Repr

/-- The initial state `main` builds (`transcribe.py` lines 203-212). -/
def initial_state (youtube_url prompt : String) : AgentState :=
  { youtube_url := youtube_url
    prompt_instruction := prompt
    audio_file_path := ""
    transcript_text := ""
    transcript_file := some ""
    summary := ""
    current_step := "download"
    error := "" }

/-- The `youtube_downloader` node (`transcribe.py` lines 38-58). -/
def youtube_downloader (env : Env) (fs : FS) (state : AgentState) :
    FS × Tr × AgentState :=
  let r := download_youtube_audio env.dl fs state.youtube_url "downloads" 3
  match r.2.2 with
  | .ok audio_file_path =>
    (r.1, r.2.1, { state with audio_file_path := audio_file_path, current_step := "transcription" })
  | .error e =>
    (r.1, r.2.1, { state with error := "Error downloading YouTube video: " ++ e.msg, current_step := "end" })

/-- The `audio_transcriber` node (`transcribe.py` lines 60-84). -/
def audio_transcriber (env : Env) (fs : FS) (state : AgentState) :
    FS × Tr × AgentState :=
  let r := transcribe_audio env.whisper fs state.audio_file_path "transcripts" (some state.youtube_url)
  match r.2.2 with
  | .ok v =>
    (r.1, r.2.1, { state with transcript_file := v.1, transcript_text := v.2, current_step := "summarization" })
  | .error e =>
    (r.1, r.2.1, { state with error := "Error transcribing audio: " ++ e.msg, current_step := "end" })

/-- The `content_summarizer` node (`transcribe.py` lines 86-110). -/
def content_summarizer (env : Env) (fs : FS) (state : AgentState) :
    FS × Tr × AgentState :=
  let r := summarize_text env.llm fs state.transcript_text state.prompt_instruction "summaries"
  match r.2.2 with
  | .ok v =>
    (r.1, r.2.1, { state with summary := v.2, current_step := "end" })
  | .error e =>
    (r.1, r.2.1, { state with error := "Error summarizing transcript: " ++ e.msg, current_step := "end" })

/-- `router` (`transcribe.py` lines 113-118). -/
def router (state : AgentState) : String :=
  if state.error ≠ "" then "end" else state.current_step

/-- The compiled LangGraph workflow of `create_youtube_processing_graph`
(`transcribe.py` lines 121-161): entry point `download`, then after each
node route on `router`.  A router value outside a node's conditional-edge
map would make LangGraph raise; that case is the `Except.error` channel,
proven unreachable. -/
def runGraph (env : Env) (fs : FS) (s0 : AgentState) :
    FS × Tr × Except String AgentState :=
  let r1 := youtube_downloader env fs s0
  if router r1.2.2 = "end" then (r1.1, r1.2.1, .ok r1.2.2)
  else if router r1.2.2 = "transcription" then
    let r2 := audio_transcriber env r1.1 r1.2.2
    if router r2.2.2 = "end" then (r2.1, r1.2.1 ++ r2.2.1, .ok r2.2.2)
    else if router r2.2.2 = "summarization" then
      let r3 := content_summarizer env r2.1 r2.2.2
      if router r3.2.2 = "end" then (r3.1, r1.2.1 ++ r2.2.1 ++ r3.2.1, .ok r3.2.2)
      else (r3.1, r1.2.1 ++ r2.2.1 ++ r3.2.1, .error ("unknown branch " ++ router r3.2.2))
    else (r2.1, r1.2.1 ++ r2.2.1, .error ("unknown branch " ++ router r2.2.2))
  else (r1.1, r1.2.1, .error ("unknown branch " ++ router r1.2.2))

/-! ## `batch_transcriber.py`: `process_youtube_urls` -/

/-- One iteration of the URL loop of `process_youtube_urls`
(lines 106-155, the non-mock branch): download, transcription wrapped in
`retry_with_backoff(max_retries=3, initial_delay=5, max_delay=60)`,
summarization; any exception is caught and recorded as
`Processing failed at step {current_step}: {e}`. -/
def processOne (env : Env) (fs : FS) (url prompt : String) : FS × Tr × AgentState :=
  let r0 : AgentState :=
    { youtube_url := url, prompt_instruction := prompt, audio_file_path := ""
      transcript_text := "", transcript_file := some "", summary := ""
      current_step := "download", error := "" }
  let d := download_youtube_audio env.dl fs url "downloads" 3
  match d.2.2 with
  | .error e =>
    (d.1, d.2.1,
      { r0 with error := "Processing failed at step download: " ++ e.msg, current_step := "end" })
  | .ok audio_file_path =>
    let r1 := { r0 with audio_file_path := audio_file_path, current_step := "transcription" }
    let t := retry_with_backoff
      (fun f => transcribe_audio env.whisper f audio_file_path "transcripts" none)
      3 5 60 env.retryJitter d.1
    match t.2.2 with
    | .error e =>
      (t.1, d.2.1 ++ t.2.1,
        { r1 with error := "Processing failed at step transcription: " ++ e.msg, current_step := "end" })
    | .ok v =>
      let r2 := { r1 with transcript_file := v.1, transcript_text := v.2, current_step := "summarization" }
      let s := summarize_text env.llm t.1 v.2 prompt "summaries"
      match s.2.2 with
      | .error e =>
        (s.1, d.2.1 ++ t.2.1 ++ s.2.1,
          { r2 with error := "Processing failed at step summarization: " ++ e.msg, current_step := "end" })
      | .ok w =>
        (s.1, d.2.1 ++ t.2.1 ++ s.2.1, { r2 with summary := w.2, current_step := "end" })

/-- The mock result of `process_youtube_urls` for index `i`
(lines 94-105). -/
def batchMockResult (i : Nat) (url prompt : String) : AgentState :=
  { youtube_url := url
    prompt_instruction := prompt
    audio_file_path := "mock_audio_" ++ toString i ++ ".mp3"
    transcript_text := "This is a mock transcript for video " ++ toString i
    transcript_file := some ("mock_transcript_" ++ toString i ++ ".txt")
    summary := "Mock summary for video " ++ toString i ++ " based on prompt: " ++ pySlice prompt 30 ++ "..."
    current_step := "end"
    error := "" }

/-- The URL loop of `process_youtube_urls` (lines 85-159): a random wait
before every URL but the first, then the per-URL processing; every
iteration appends a result. -/
def processUrlsGo (env : Env) (prompt : String) (use_mock : Bool) :
    FS → List String → Nat → FS × Tr × List AgentState
  | fs, [], _ => (fs, [], [])
  | fs, url :: rest, i =>
    let waitTr : Tr := if i = 0 then [] else [.batchSleep (env.batchWait i)]
    let r :=
      if use_mock then (fs, ([] : Tr), batchMockResult i url prompt)
      else processOne env fs url prompt
    let rest2 := processUrlsGo env prompt use_mock r.1 rest (i + 1)
    (rest2.1, waitTr ++ r.2.1 ++ rest2.2.1, r.2.2 :: rest2.2.2)

/-- `process_youtube_urls(urls, prompt, use_mock)` (lines 68-161). -/
def process_youtube_urls (env : Env) (fs : FS) (urls : List String)
    (prompt : String) (use_mock : Bool) : FS × Tr × List AgentState :=
  processUrlsGo env prompt use_mock fs urls 0

/-! ## Helper lemmas -/

theorem str_prefix_ne_empty (s t : String) (h : s.length ≠ 0) : s ++ t ≠ "" := by
  intro hc
  have h2 := congrArg String.length hc
  rw [String.length_append] at h2
  simp only [String.length_empty] at h2
  omega

theorem pyIn_parts (a pat b : String) : pyIn pat (a ++ (pat ++ b)) = true := by
  apply decide_eq_true
  exact ⟨a.data, b.data, by simp [String.data_append]⟩

theorem pyIn_head (pat b : String) : pyIn pat (pat ++ b) = true := by
  apply decide_eq_true
  exact ⟨[], b.data, by simp [String.data_append]⟩

theorem router_of_error (s : AgentState) (h : s.error ≠ "") : router s = "end" := by
  simp [router, h]

theorem router_of_ok (s : AgentState) (h : s.error = "") : router s = s.current_step := by
  simp [router, h]

/-- The `youtube_downloader` node either advances to `transcription`
leaving `error` untouched, or stops with a non-empty `error`. -/
theorem youtube_downloader_step (env : Env) (fs : FS) (s : AgentState) :
    ((youtube_downloader env fs s).2.2.current_step = "transcription" ∧
      (youtube_downloader env fs s).2.2.error = s.error) ∨
    ((youtube_downloader env fs s).2.2.current_step = "end" ∧
      (youtube_downloader env fs s).2.2.error ≠ "") := by
  unfold youtube_downloader
  cases h : (download_youtube_audio env.dl fs s.youtube_url "downloads" 3).2.2 with
  | ok p => left; simp [h]
  | error e =>
    right
    simp [h]
    exact str_prefix_ne_empty "Error downloading YouTube video: " e.msg (by decide)

/-- The `audio_transcriber` node either advances to `summarization`
leaving `error` untouched, or stops with a non-empty `error`. -/
theorem audio_transcriber_step (env : Env) (fs : FS) (s : AgentState) :
    ((audio_transcriber env fs s).2.2.current_step = "summarization" ∧
      (audio_transcriber env fs s).2.2.error = s.error) ∨
    ((audio_transcriber env fs s).2.2.current_step = "end" ∧
      (audio_transcriber env fs s).2.2.error ≠ "") := by
  unfold audio_transcriber
  cases h : (transcribe_audio env.whisper fs s.audio_file_path "transcripts" (some s.youtube_url)).2.2 with
  | ok v => left; simp [h]
  | error e =>
    right
    simp [h]
    exact str_prefix_ne_empty "Error transcribing audio: " e.msg (by decide)

/-- The `content_summarizer` node always sets `current_step` to `end`, and
either leaves `error` untouched or makes it non-empty. -/
theorem content_summarizer_step (env : Env) (fs : FS) (s : AgentState) :
    ((content_summarizer env fs s).2.2.current_step = "end" ∧
      (content_summarizer env fs s).2.2.error = s.error) ∨
    ((content_summarizer env fs s).2.2.current_step = "end" ∧
      (content_summarizer env fs s).2.2.error ≠ "") := by
  unfold content_summarizer
  cases h : (summarize_text env.llm fs s.transcript_text s.prompt_instruction "summaries").2.2 with
  | ok v => left; simp [h]
  | error e =>
    right
    simp [h]
    exact str_prefix_ne_empty "Error summarizing transcript: " e.msg (by decide)

/-- The graph always reaches an `END` edge: the routing-error channel of
`runGraph` is unreachable, whatever the oracles do. -/
theorem runGraph_isOk (env : Env) (fs : FS) (s0 : AgentState) :
    ∃ s, (runGraph env fs s0).2.2 = Except.ok s := by
  unfold runGraph
  by_cases h1 : router (youtube_downloader env fs s0).2.2 = "end"
  · rw [if_pos h1]; exact ⟨_, rfl⟩
  · have h1t : router (youtube_downloader env fs s0).2.2 = "transcription" := by
      rcases youtube_downloader_step env fs s0 with ⟨hc, _⟩ | ⟨_, he⟩
      · by_cases hee : (youtube_downloader env fs s0).2.2.error = ""
        · rw [router_of_ok _ hee, hc]
        · exact absurd (router_of_error _ hee) h1
      · exact absurd (router_of_error _ he) h1
    rw [if_neg h1, if_pos h1t]
    by_cases h2 : router (audio_transcriber env (youtube_downloader env fs s0).1
        (youtube_downloader env fs s0).2.2).2.2 = "end"
    · rw [if_pos h2]; exact ⟨_, rfl⟩
    · have h2s : router (audio_transcriber env (youtube_downloader env fs s0).1
          (youtube_downloader env fs s0).2.2).2.2 = "summarization" := by
        rcases audio_transcriber_step env (youtube_downloader env fs s0).1
            (youtube_downloader env fs s0).2.2 with ⟨hc, _⟩ | ⟨_, he⟩
        · by_cases hee : (audio_transcriber env (youtube_downloader env fs s0).1
              (youtube_downloader env fs s0).2.2).2.2.error = ""
          · rw [router_of_ok _ hee, hc]
          · exact absurd (router_of_error _ hee) h2
        · exact absurd (router_of_error _ he) h2
      rw [if_neg h2, if_pos h2s]
      have h3 : router (content_summarizer env
          (audio_transcriber env (youtube_downloader env fs s0).1 (youtube_downloader env fs s0).2.2).1
          (audio_transcriber env (youtube_downloader env fs s0).1 (youtube_downloader env fs s0).2.2).2.2).2.2 = "end" := by
        rcases content_summarizer_step env
            (audio_transcriber env (youtube_downloader env fs s0).1 (youtube_downloader env fs s0).2.2).1
            (audio_transcriber env (youtube_downloader env fs s0).1 (youtube_downloader env fs s0).2.2).2.2
          with ⟨hc, _⟩ | ⟨_, he⟩
        · by_cases hee : (content_summarizer env
              (audio_transcriber env (youtube_downloader env fs s0).1 (youtube_downloader env fs s0).2.2).1
              (audio_transcriber env (youtube_downloader env fs s0).1 (youtube_downloader env fs s0).2.2).2.2).2.2.error = ""
          · rw [router_of_ok _ hee, hc]
          · exact router_of_error _ hee
        · exact router_of_error _ he
      rw [if_pos h3]
      exact ⟨_, rfl⟩

/-- Every URL of a batch yields exactly one result record. -/
theorem processUrlsGo_length (env : Env) (prompt : String) (use_mock : Bool) :
    ∀ (urls : List String) (fs : FS) (i : Nat),
      (processUrlsGo env prompt use_mock fs urls i).2.2.length = urls.length := by
  intro urls
  induction urls with
  | nil => intro fs i; rfl
  | cons u rest ih =>
    intro fs i
    simp [processUrlsGo, ih]

/-! ## Claims -/

/-- C1: every pipeline invocation returns a final state — the graph run
always ends in an `Except.ok` state for any oracle behaviour (every stage
exception is converted into the `error` field by its node, so no exception
and no routing error escapes the controller), and the batch driver
produces one result record per URL, so a failing URL never prevents the
others from being processed. -/
theorem c1_controller_always_returns_state (env : Env) (fs : FS)
    (url prompt : String) (urls : List String) :
    (∃ s, (runGraph env fs (initial_state url prompt)).2.2 = Except.ok s) ∧
    (process_youtube_urls env fs urls prompt false).2.2.length = urls.length := by
  exact ⟨runGraph_isOk env fs (initial_state url prompt),
    processUrlsGo_length env prompt false urls fs 0⟩

/-- An empty filesystem. -/
def fsEmpty : FS := { files := [], dirs := [], failWrite := [], failDirs := [] }

/-- A filesystem on which the `downloads` directory cannot be created, so
the fetch stage raises at its first statement. -/
def fsNoDownloads : FS := { files := [], dirs := [], failWrite := [], failDirs := ["downloads"] }

/-- A baseline oracle environment: no yt-dlp, every pytube construction
fails transiently, the Whisper and LLM calls fail, all jitter is zero. -/
def envBase : Env :=
  { dl := { hasYtDlp := false, ytdlp := .ok 1,
            pytubeNew := fun _ _ => .error (.other "connection reset"),
            findStream := fun _ _ => false,
            streamDownload := fun _ _ => .error (.other "connection reset"),
            dlJitter := fun _ _ => 0 }
    whisper := fun _ => .error (.openAIErr "service unavailable")
    llm := fun _ _ => .error (.openAIErr "service unavailable")
    retryJitter := fun _ => 0
    batchWait := fun _ => 0 }

/-- If the fetch node sets `error`, the run stops with its state. -/
theorem runGraph_stop_after_downloader (env : Env) (fs : FS) (s0 : AgentState)
    (fs1 : FS) (t1 : Tr) (s1 : AgentState)
    (h1 : youtube_downloader env fs s0 = (fs1, t1, s1)) (he : s1.error ≠ "") :
    runGraph env fs s0 = (fs1, t1, Except.ok s1) := by
  unfold runGraph
  rw [h1]
  simp [router_of_error _ he]

/-- If the fetch node succeeds and the transcribe node sets `error`, the
run stops with the transcribe node's state. -/
theorem runGraph_stop_after_transcriber (env : Env) (fs : FS) (s0 : AgentState)
    (fs1 : FS) (t1 : Tr) (s1 : AgentState) (fs2 : FS) (t2 : Tr) (s2 : AgentState)
    (h1 : youtube_downloader env fs s0 = (fs1, t1, s1))
    (h2 : audio_transcriber env fs1 s1 = (fs2, t2, s2))
    (he1 : s1.error = "") (he2 : s2.error ≠ "") :
    runGraph env fs s0 = (fs2, t1 ++ t2, Except.ok s2) := by
  have hs1 := youtube_downloader_step env fs s0
  rw [h1] at hs1
  simp only at hs1
  rcases hs1 with ⟨hc, _⟩ | ⟨_, hne⟩
  · unfold runGraph
    rw [h1]
    simp only
    rw [router_of_ok _ he1, hc]
    rw [if_neg (by decide), if_pos rfl]
    rw [h2]
    simp [router_of_error _ he2]
  · exact absurd he1 hne

/-- C2: once a stage has set `error`, the run stops there: the graph
returns exactly the state produced by the erroring stage — no later node
runs, no field (and not even the filesystem or the trace) changes after
the error was recorded. -/
theorem c2_fail_fast_freezes_state (env : Env) (fs : FS) (s0 : AgentState)
    (fs1 : FS) (t1 : Tr) (s1 : AgentState)
    (h1 : youtube_downloader env fs s0 = (fs1, t1, s1)) :
    (s1.error ≠ "" → runGraph env fs s0 = (fs1, t1, Except.ok s1)) ∧
    (∀ (fs2 : FS) (t2 : Tr) (s2 : AgentState),
      audio_transcriber env fs1 s1 = (fs2, t2, s2) → s1.error = "" → s2.error ≠ "" →
      runGraph env fs s0 = (fs2, t1 ++ t2, Except.ok s2)) := by
  constructor
  · exact runGraph_stop_after_downloader env fs s0 fs1 t1 s1 h1
  · intro fs2 t2 s2 h2 he1 he2
    exact runGraph_stop_after_transcriber env fs s0 fs1 t1 s1 fs2 t2 s2 h1 h2 he1 he2

/-- Witness for C2 at a concrete input: the fetch stage fails (the
`downloads` directory cannot be created), `error` is set, and the run
returns that state unchanged. -/
theorem c2_fail_fast_freezes_state_witness :
    (youtube_downloader envBase fsNoDownloads (initial_state "u" "p")).2.2.error ≠ "" ∧
    runGraph envBase fsNoDownloads (initial_state "u" "p") =
      ((youtube_downloader envBase fsNoDownloads (initial_state "u" "p")).1,
        (youtube_downloader envBase fsNoDownloads (initial_state "u" "p")).2.1,
        Except.ok (youtube_downloader envBase fsNoDownloads (initial_state "u" "p")).2.2) :=
  ⟨by decide,
    (c2_fail_fast_freezes_state envBase fsNoDownloads (initial_state "u" "p") _ _ _ rfl).1
      (by decide)⟩

/-- Closed form of the `delay` local of `retry_with_backoff`:
`min(initial_delay * 2 ** k, max_delay)`. -/
theorem backoffDelay_closed_form (b m : ℚ) (hb : 0 ≤ b) (hbm : b ≤ m) :
    ∀ k, backoffDelay b m k = min (b * 2 ^ k) m := by
  intro k
  induction k with
  | zero => simp [backoffDelay, min_eq_left hbm]
  | succ k ih =>
    have hm0 : (0 : ℚ) ≤ m := le_trans hb hbm
    have hbk : (0 : ℚ) ≤ b * 2 ^ k := by positivity
    rw [backoffDelay, ih]
    rcases le_total (b * 2 ^ k) m with h | h
    · rw [min_eq_left h, pow_succ, ← mul_assoc]
    · rw [min_eq_right h, min_eq_right (by linarith), min_eq_right ?_]
      calc m ≤ b * 2 ^ k := h
        _ ≤ b * 2 ^ k * 2 := by linarith
        _ = b * 2 ^ (k + 1) := by rw [pow_succ, mul_assoc]

/-- C6: the pre-jitter delay slept after the n-th (1-based) failed attempt
— that is, before attempt `n + 1` — is `min(base_delay * 2 ** (n-1),
max_delay)` (here indexed `k = n - 1`); the sequence of pre-jitter delays
is non-decreasing and capped at `max_delay`; and with the code-level
configuration (`max_retries = 3`), a capability failing with a retryable
error on every attempt makes `retry_with_backoff` sleep exactly
`delay + jitter` for the first two attempts, where `jitter` is the oracle
modelling `random.uniform(0, 0.1 * delay)`. -/
theorem c6_backoff_delay_formula (b m : ℚ) (hb : 0 ≤ b) (hbm : b ≤ m) :
    (∀ k, backoffDelay b m k = min (b * 2 ^ k) m) ∧
    (∀ k, backoffDelay b m k ≤ backoffDelay b m (k + 1)) ∧
    (∀ k, backoffDelay b m k ≤ m) ∧
    (∀ (j : Nat → ℚ) (fs : FS) (e : PyErr), e.isOpenAI = true →
      (@retry_with_backoff Unit (fun f => (f, ([] : Tr), Except.error e)) 3 b m j fs).2.1 =
          [Ev.retrySleep (backoffDelay b m 0 + j 0),
            Ev.retrySleep (backoffDelay b m 1 + j 1)] ∧
        (@retry_with_backoff Unit (fun f => (f, ([] : Tr), Except.error e)) 3 b m j fs).2.2 =
          Except.error e) := by
  have hform := backoffDelay_closed_form b m hb hbm
  refine ⟨hform, ?_, ?_, ?_⟩
  · intro k
    rw [hform k, hform (k + 1)]
    have : b * 2 ^ k ≤ b * 2 ^ (k + 1) := by
      have h2 : (2 : ℚ) ^ k ≤ 2 ^ (k + 1) := by
        have := pow_le_pow_right₀ (by norm_num : (1 : ℚ) ≤ 2) (Nat.le_succ k)
        simpa using this
      exact mul_le_mul_of_nonneg_left h2 hb
    exact min_le_min this (le_refl m)
  · intro k
    rw [hform k]
    exact min_le_right _ _
  · intro j fs e he
    constructor
    · simp [retry_with_backoff, retryGo, he, backoffDelay]
    · simp [retry_with_backoff, retryGo, he]

/-- Witness for C6 at the concrete configuration the batch transcription
step uses (`initial_delay = 5`, `max_delay = 60`). -/
theorem c6_backoff_delay_formula_witness :
    (0 : ℚ) ≤ 5 ∧ (5 : ℚ) ≤ 60 ∧ backoffDelay 5 60 1 = min (5 * 2 ^ 1) 60 :=
  ⟨by decide, by decide,
    (c6_backoff_delay_formula 5 60 (by decide) (by decide)).1 1⟩

/-- C8: if fetch succeeds (producing artifact path `p`) and transcription
then fails hard with exception `e`, both pipeline variants return a final
record that still carries `audio_file_path = p` and whose `error` message
names the transcribe stage — in the graph run
`Error transcribing audio: {e}`, in the batch run
`Processing failed at step transcription: {e}`. -/
theorem c8_partial_state_preserved_on_transcribe_failure (env : Env) (fs : FS)
    (url prompt p : String) (e : PyErr) (fs1 : FS) (t1 : Tr)
    (hd : download_youtube_audio env.dl fs url "downloads" 3 = (fs1, t1, Except.ok p)) :
    (∀ (fs2 : FS) (t2 : Tr),
      transcribe_audio env.whisper fs1 p "transcripts" (some url) = (fs2, t2, Except.error e) →
      runGraph env fs (initial_state url prompt) =
        (fs2, t1 ++ t2, Except.ok
          { initial_state url prompt with
              audio_file_path := p, current_step := "end",
              error := "Error transcribing audio: " ++ e.msg })) ∧
    (∀ (fs2 : FS) (t2 : Tr),
      retry_with_backoff (fun f => transcribe_audio env.whisper f p "transcripts" none)
          3 5 60 env.retryJitter fs1 = (fs2, t2, Except.error e) →
      processOne env fs url prompt =
        (fs2, t1 ++ t2, { initial_state url prompt with
            audio_file_path := p, current_step := "end",
            error := "Processing failed at step transcription: " ++ e.msg })) := by
  constructor
  · intro fs2 t2 ht
    have h1 : youtube_downloader env fs (initial_state url prompt) =
        (fs1, t1, { initial_state url prompt with
          audio_file_path := p, current_step := "transcription" }) := by
      unfold youtube_downloader
      simp only [initial_state]
      rw [hd]
    have h2 : audio_transcriber env fs1
        { initial_state url prompt with audio_file_path := p, current_step := "transcription" } =
        (fs2, t2, { initial_state url prompt with
          audio_file_path := p, current_step := "end",
          error := "Error transcribing audio: " ++ e.msg }) := by
      unfold audio_transcriber
      simp only [initial_state]
      rw [ht]
    have := runGraph_stop_after_transcriber env fs (initial_state url prompt) fs1 t1 _
      fs2 t2 _ h1 h2 rfl
      (str_prefix_ne_empty "Error transcribing audio: " e.msg (by decide))
    exact this
  · intro fs2 t2 ht
    unfold processOne
    rw [hd]
    simp only
    rw [ht]
    simp [initial_state]

/-- A filesystem on which the `transcripts` directory cannot be created,
so the transcribe stage raises at its first statement. -/
def fsNoTranscripts : FS := { files := [], dirs := [], failWrite := [], failDirs := ["transcripts"] }

/-- `envBase` with a working yt-dlp, so the fetch stage succeeds. -/
def envYt : Env := { envBase with dl := { envBase.dl with hasYtDlp := true, ytdlp := .ok 0 } }

/-- The filesystem after the fetch stage of the C8 witness run. -/
def c8fs1 : FS := { files := [], dirs := ["downloads"], failWrite := [], failDirs := ["transcripts"] }

/-- Witness for C8: fetch succeeds via yt-dlp, transcription raises
because the `transcripts` directory cannot be created; both pipeline
variants keep the audio path and report a transcribe-stage error. -/
theorem c8_partial_state_preserved_on_transcribe_failure_witness :
    runGraph envYt fsNoTranscripts (initial_state "https://www.youtube.com/watch?v=V" "p") =
      (c8fs1, [Ev.ytdlpCall] ++ [], Except.ok
        { initial_state "https://www.youtube.com/watch?v=V" "p" with
            audio_file_path := "downloads/V.mp3", current_step := "end",
            error := "Error transcribing audio: " ++ (PyErr.osError "cannot create transcripts").msg }) ∧
    processOne envYt fsNoTranscripts "https://www.youtube.com/watch?v=V" "p" =
      (c8fs1, [Ev.ytdlpCall] ++ [],
        { initial_state "https://www.youtube.com/watch?v=V" "p" with
            audio_file_path := "downloads/V.mp3", current_step := "end",
            error := "Processing failed at step transcription: " ++ (PyErr.osError "cannot create transcripts").msg }) :=
  ⟨(c8_partial_state_preserved_on_transcribe_failure envYt fsNoTranscripts
      "https://www.youtube.com/watch?v=V" "p" "downloads/V.mp3"
      (PyErr.osError "cannot create transcripts") c8fs1 [Ev.ytdlpCall] rfl).1 c8fs1 [] rfl,
    (c8_partial_state_preserved_on_transcribe_failure envYt fsNoTranscripts
      "https://www.youtube.com/watch?v=V" "p" "downloads/V.mp3"
      (PyErr.osError "cannot create transcripts") c8fs1 [Ev.ytdlpCall] rfl).2 c8fs1 [] rfl⟩

/-- C10: the summarize fallback path is not total.  If the output
directory does not exist and creating it raises — an exception thrown
before the local `safe_prompt` is assigned — the `except` handler itself
evaluates the unbound `safe_prompt` and raises `NameError`, so
`summarize_text` raises instead of returning a mock summary. -/
theorem c10_summarize_fallback_raises_nameerror
    (llm : String → String → Except PyErr String) (fs : FS) (text prompt : String)
    (hdir : fs.dirExists "summaries" = false)
    (hfail : fs.failDirs.contains "summaries" = true) :
    summarize_text llm fs text prompt "summaries" =
      (fs, [], Except.error (PyErr.nameError "safe_prompt")) := by
  unfold summarize_text FS.makedirs
  rw [hdir, hfail]
  simp [summarizeExceptHandler]

/-- A filesystem on which the `summaries` directory cannot be created. -/
def fsNoSummaries : FS := { files := [], dirs := [], failWrite := [], failDirs := ["summaries"] }

/-- Witness for C10: on `fsNoSummaries`, `summarize_text` raises the
`safe_prompt` `NameError` even though a transcript and prompt are given. -/
theorem c10_summarize_fallback_raises_nameerror_witness :
    fsNoSummaries.dirExists "summaries" = false ∧
    summarize_text envBase.llm fsNoSummaries "some transcript" "some prompt" "summaries" =
      (fsNoSummaries, [], Except.error (PyErr.nameError "safe_prompt")) :=
  ⟨rfl, c10_summarize_fallback_raises_nameerror envBase.llm fsNoSummaries
    "some transcript" "some prompt" rfl rfl⟩

/-- When the pytube construction raises, the attempt raises that error
after a single capability invocation. -/
theorem pytubeAttempt_new_error (env : DlEnv) (fs : FS) (vid output_dir : String)
    (m : DlMethod) (n : Nat) (e : PyErr) (h : env.pytubeNew m n = Except.error e) :
    pytubeAttempt env fs vid output_dir m n = ([Ev.pytubeCall m n], Except.error e) := by
  cases m <;> simp [pytubeAttempt, h]

/-- If every attempt of a method fails with a non-fatal (retryable)
exception, the method's retry loop exhausts and yields no path. -/
theorem tryMethod_exhausts (env : DlEnv) (fs : FS) (vid output_dir : String)
    (m : DlMethod) (max_retries : Nat) (errf : Nat → PyErr)
    (hp : ∀ n, (pytubeAttempt env fs vid output_dir m n).2 = Except.error (errf n))
    (hf : ∀ n, (errf n).isPytubeFatal = false) :
    ∀ fuel n, (tryMethod env fs vid output_dir m max_retries fuel n).2 = none := by
  intro fuel
  induction fuel with
  | zero => intro n; rfl
  | succ fuel ih =>
    intro n
    simp only [tryMethod]
    cases hx : (pytubeAttempt env fs vid output_dir m n).2 with
    | ok v =>
      rw [hp n] at hx
      exact absurd hx (by simp)
    | error e2 =>
      rw [hp n] at hx
      injection hx with hx2
      subst hx2
      simp only [hf n, Bool.false_eq_true, if_false]
      split
      · exact ih (n + 1)
      · rfl

/-- When both methods exhaust, the pytube phase produces the fallback
file. -/
theorem downloadPytubePhase_fallback (env : DlEnv) (fs : FS)
    (vid output_dir : String) (max_retries : Nat)
    (hD : (tryMethod env fs vid output_dir .direct max_retries max_retries 0).2 = none)
    (hA : (tryMethod env fs vid output_dir .alternative max_retries max_retries 0).2 = none) :
    (downloadPytubePhase env fs vid output_dir max_retries).2.2 =
      (create_fallback_audio_file fs output_dir vid).2.2 := by
  simp only [downloadPytubePhase]
  rw [hD, hA]

/-- A successful fallback-file write returns the `fallback_{video_id}.mp3`
path. -/
theorem create_fallback_audio_file_ok (fs : FS) (output_dir vid : String)
    (hw : fs.failWrite.contains (pathJoin output_dir ("fallback_" ++ vid ++ ".mp3")) = false) :
    (create_fallback_audio_file fs output_dir vid).2.2 =
      Except.ok (pathJoin output_dir ("fallback_" ++ vid ++ ".mp3")) := by
  simp only [create_fallback_audio_file, FS.write]
  rw [hw]
  simp

/-- Exhausting all transient download attempts yields the fallback path,
not an exception. -/
theorem download_all_transient_falls_back (env : DlEnv) (fs : FS) (url : String)
    (errf : DlMethod → Nat → PyErr)
    (hy : env.hasYtDlp = false)
    (hp : ∀ m n, env.pytubeNew m n = Except.error (errf m n))
    (hf : ∀ m n, (errf m n).isPytubeFatal = false)
    (hmk : fs.failDirs.contains "downloads" = false)
    (hw : fs.failWrite.contains (pathJoin "downloads" ("fallback_" ++ videoIdOf url ++ ".mp3")) = false) :
    (download_youtube_audio env fs url "downloads" 3).2.2 =
      Except.ok (pathJoin "downloads" ("fallback_" ++ videoIdOf url ++ ".mp3")) := by
  unfold download_youtube_audio FS.makedirs
  rw [hmk]
  simp only [hy, if_false, Bool.false_eq_true]
  have hfs0 : ∀ (m : DlMethod) (n : Nat),
      (pytubeAttempt env { fs with dirs := "downloads" :: fs.dirs } (videoIdOf url) "downloads" m n).2 =
        Except.error (errf m n) := by
    intro m n
    rw [pytubeAttempt_new_error env _ _ _ m n (errf m n) (hp m n)]
  have hD := tryMethod_exhausts env { fs with dirs := "downloads" :: fs.dirs } (videoIdOf url)
    "downloads" .direct 3 (errf .direct) (hfs0 .direct) (hf .direct) 3 0
  have hA := tryMethod_exhausts env { fs with dirs := "downloads" :: fs.dirs } (videoIdOf url)
    "downloads" .alternative 3 (errf .alternative) (hfs0 .alternative) (hf .alternative) 3 0
  rw [downloadPytubePhase_fallback env _ _ _ 3 hD hA]
  exact create_fallback_audio_file_ok _ "downloads" (videoIdOf url) hw

/-- A successful fetch leaves the fetch node in the `transcription` step
with the returned path and an untouched `error`. -/
theorem youtube_downloader_ok_state (env : Env) (fs : FS) (s : AgentState) (p : String)
    (h : (download_youtube_audio env.dl fs s.youtube_url "downloads" 3).2.2 = Except.ok p) :
    (youtube_downloader env fs s).2.2 =
      { s with audio_file_path := p, current_step := "transcription" } := by
  simp only [youtube_downloader]
  cases hx : (download_youtube_audio env.dl fs s.youtube_url "downloads" 3).2.2 with
  | ok q =>
    rw [h] at hx
    injection hx with h2
    subst h2
    rfl
  | error e =>
    rw [h] at hx
    exact absurd hx (by simp)

/-- A Whisper failure (of any kind) makes `transcribe_audio` return the
mock transcript — one capability call, then the fallback, no exception. -/
theorem transcribe_api_error_mock (whisper : String → Except PyErr String)
    (fs : FS) (p : String) (e : PyErr)
    (h1 : fs.failDirs.contains "transcripts" = false)
    (h2 : fs.fileExists (transcriptFileFor p "transcripts" none) = false)
    (h3 : pyIn "fallback_" ((splitext (basename p)).1) = false)
    (h3b : pyIn "fallback_" (basename p) = false)
    (h4 : fs.fileExists p = true)
    (h5 : whisper p = Except.error e)
    (h6 : fs.failWrite.contains (transcriptFileFor p "transcripts" none) = false) :
    (transcribe_audio whisper fs p "transcripts" none).2.1 =
        [Ev.whisperCall, Ev.mockTranscript] ∧
      (transcribe_audio whisper fs p "transcripts" none).2.2 =
        Except.ok (some (transcriptFileFor p "transcripts" none),
          mockTranscriptText ("Note: Transcription failed with error: " ++ e.msg ++ "\n\n")
            ((splitext (basename p)).1)) := by
  have h1m : "transcripts" ∉ fs.failDirs := by simpa using h1
  have h6m : transcriptFileFor p "transcripts" none ∉ fs.failWrite := by simpa using h6
  have hfe : FS.fileExists { fs with dirs := "transcripts" :: fs.dirs }
      (transcriptFileFor p "transcripts" none) = false := h2
  have hae : FS.fileExists { fs with dirs := "transcripts" :: fs.dirs } p = true := h4
  constructor <;>
    simp [transcribe_audio, FS.makedirs, FS.write, create_mock_transcript,
      h1m, hfe, h3, h3b, hae, h5, h6m]

/-- If the wrapped call succeeds at once, `retry_with_backoff` returns its
result unchanged (no sleeps, no retries). -/
theorem retryGo_first_attempt_ok {α : Type} (func : FS → FS × Tr × Except PyErr α)
    (mr : Nat) (md : ℚ) (j : Nat → ℚ) (fs : FS) (b : ℚ) (v : α) (fuel : Nat)
    (h : (func fs).2.2 = Except.ok v) :
    retryGo func mr md j (fuel + 1) fs b = ((func fs).1, (func fs).2.1, Except.ok v) := by
  simp only [retryGo]
  cases hx : (func fs).2.2 with
  | ok w =>
    rw [h] at hx
    injection hx with h2
    subst h2
    rfl
  | error e2 =>
    rw [h] at hx
    exact absurd hx (by simp)

/-- C4: exhausting the retries of a stage whose capability keeps failing
with transient errors triggers the stage's fallback, not a pipeline
failure.  Fetch: when every pytube attempt of both methods fails with a
retryable error, `download_youtube_audio` returns the fallback audio path
and the fetch node continues the pipeline to `transcription` with `error`
still empty.  Transcribe: when the Whisper call fails, `transcribe_audio`
returns a mock transcript instead of raising, so the retry wrapper of the
batch pipeline succeeds on the first attempt with no retry sleeps. -/
theorem c4_retry_exhaustion_triggers_fallback (env : Env) (fs fsT : FS)
    (url prompt p : String) (errf : DlMethod → Nat → PyErr) (e : PyErr)
    (hy : env.dl.hasYtDlp = false)
    (hp : ∀ m n, env.dl.pytubeNew m n = Except.error (errf m n))
    (hf : ∀ m n, (errf m n).isPytubeFatal = false)
    (hmk : fs.failDirs.contains "downloads" = false)
    (hw : fs.failWrite.contains (pathJoin "downloads" ("fallback_" ++ videoIdOf url ++ ".mp3")) = false)
    (h1 : fsT.failDirs.contains "transcripts" = false)
    (h2 : fsT.fileExists (transcriptFileFor p "transcripts" none) = false)
    (h3 : pyIn "fallback_" ((splitext (basename p)).1) = false)
    (h3b : pyIn "fallback_" (basename p) = false)
    (h4 : fsT.fileExists p = true)
    (h5 : env.whisper p = Except.error e)
    (h6 : fsT.failWrite.contains (transcriptFileFor p "transcripts" none) = false) :
    ((download_youtube_audio env.dl fs url "downloads" 3).2.2 =
        Except.ok (pathJoin "downloads" ("fallback_" ++ videoIdOf url ++ ".mp3"))) ∧
    ((youtube_downloader env fs (initial_state url prompt)).2.2 =
      { initial_state url prompt with
          audio_file_path := pathJoin "downloads" ("fallback_" ++ videoIdOf url ++ ".mp3"),
          current_step := "transcription" }) ∧
    ((transcribe_audio env.whisper fsT p "transcripts" none).2.2 =
        Except.ok (some (transcriptFileFor p "transcripts" none),
          mockTranscriptText ("Note: Transcription failed with error: " ++ e.msg ++ "\n\n")
            ((splitext (basename p)).1))) ∧
    ((retry_with_backoff (fun f => transcribe_audio env.whisper f p "transcripts" none)
        3 5 60 env.retryJitter fsT).2.2 =
        Except.ok (some (transcriptFileFor p "transcripts" none),
          mockTranscriptText ("Note: Transcription failed with error: " ++ e.msg ++ "\n\n")
            ((splitext (basename p)).1))) ∧
    ((retry_with_backoff (fun f => transcribe_audio env.whisper f p "transcripts" none)
        3 5 60 env.retryJitter fsT).2.1.countP Ev.isRetrySleep = 0) := by
  have hD := download_all_transient_falls_back env.dl fs url errf hy hp hf hmk hw
  have hT := transcribe_api_error_mock env.whisper fsT p e h1 h2 h3 h3b h4 h5 h6
  have hR := retryGo_first_attempt_ok
    (fun f => transcribe_audio env.whisper f p "transcripts" none) 3 60 env.retryJitter fsT 5
    (some (transcriptFileFor p "transcripts" none),
      mockTranscriptText ("Note: Transcription failed with error: " ++ e.msg ++ "\n\n")
        ((splitext (basename p)).1)) 2 hT.2
  refine ⟨hD, youtube_downloader_ok_state env fs (initial_state url prompt) _ hD, hT.2, ?_, ?_⟩
  · show (retryGo (fun f => transcribe_audio env.whisper f p "transcripts" none)
      3 60 env.retryJitter 3 fsT 5).2.2 = _
    rw [show (3 : Nat) = 2 + 1 from rfl, hR]
  · show (retryGo (fun f => transcribe_audio env.whisper f p "transcripts" none)
      3 60 env.retryJitter 3 fsT 5).2.1.countP Ev.isRetrySleep = 0
    rw [show (3 : Nat) = 2 + 1 from rfl, hR]
    simp [hT.1, Ev.isRetrySleep]

/-- A filesystem already holding the fetched audio artifact. -/
def fsAudio : FS :=
  { files := [("downloads/VID1.mp3", "audio-bytes")], dirs := [], failWrite := [], failDirs := [] }

/-- Witness for C4: with no yt-dlp and every pytube attempt failing
transiently, the fetch of `...watch?v=VID1` returns the fallback file; a
Whisper outage makes the transcribe stage return a mock transcript with
no retry sleeps. -/
theorem c4_retry_exhaustion_triggers_fallback_witness :
    (download_youtube_audio envBase.dl fsEmpty "https://www.youtube.com/watch?v=VID1" "downloads" 3).2.2 =
      Except.ok "downloads/fallback_VID1.mp3" ∧
    (transcribe_audio envBase.whisper fsAudio "downloads/VID1.mp3" "transcripts" none).2.2 =
      Except.ok (some "transcripts/VID1.txt",
        mockTranscriptText "Note: Transcription failed with error: service unavailable\n\n" "VID1") ∧
    (retry_with_backoff (fun f => transcribe_audio envBase.whisper f "downloads/VID1.mp3" "transcripts" none)
        3 5 60 envBase.retryJitter fsAudio).2.1.countP Ev.isRetrySleep = 0 := by
  have h := c4_retry_exhaustion_triggers_fallback envBase fsEmpty fsAudio
    "https://www.youtube.com/watch?v=VID1" "p" "downloads/VID1.mp3"
    (fun _ _ => PyErr.other "connection reset") (PyErr.openAIErr "service unavailable")
    rfl (fun _ _ => rfl) (fun _ _ => rfl) rfl rfl rfl (by decide) (by decide) (by decide)
    rfl rfl rfl
  exact ⟨h.1, h.2.2.1, h.2.2.2.2⟩

/-- Every mock transcript contains the marker sentence, whatever the
message prefix and video id. -/
theorem pyIn_mockTranscriptText (message video_id : String) :
    pyIn mockTranscriptMarker (mockTranscriptText message video_id) = true :=
  pyIn_parts message mockTranscriptMarker _

/-- Every mock summary contains the marker sentence, whatever the prompt
and video id. -/
theorem pyIn_mockSummaryText (prompt_instruction video_id : String) :
    pyIn mockSummaryMarker (mockSummaryText prompt_instruction video_id) = true :=
  pyIn_head mockSummaryMarker _

/-- A non-retryable (`RegexMatchError`/`VideoUnavailable`) failure stops a
method after a single attempt, with no backoff sleep. -/
theorem tryMethod_fatal_stops (env : DlEnv) (fs : FS) (vid output_dir : String)
    (m : DlMethod) (max_retries fuel n : Nat) (e : PyErr)
    (hp : (pytubeAttempt env fs vid output_dir m n).2 = Except.error e)
    (hf : e.isPytubeFatal = true) :
    tryMethod env fs vid output_dir m max_retries (fuel + 1) n =
      ((pytubeAttempt env fs vid output_dir m n).1, none) := by
  simp only [tryMethod]
  cases hx : (pytubeAttempt env fs vid output_dir m n).2 with
  | ok v =>
    rw [hp] at hx
    exact absurd hx (by simp)
  | error e2 =>
    rw [hp] at hx
    injection hx with hx2
    subst hx2
    simp [hf]

/-- A successful attempt returns its path at once. -/
theorem tryMethod_attempt_ok (env : DlEnv) (fs : FS) (vid output_dir : String)
    (m : DlMethod) (max_retries fuel n : Nat) (p : String)
    (hp : (pytubeAttempt env fs vid output_dir m n).2 = Except.ok p) :
    tryMethod env fs vid output_dir m max_retries (fuel + 1) n =
      ((pytubeAttempt env fs vid output_dir m n).1, some p) := by
  simp only [tryMethod]
  cases hx : (pytubeAttempt env fs vid output_dir m n).2 with
  | ok v =>
    rw [hp] at hx
    injection hx with hx2
    subst hx2
    rfl
  | error e2 =>
    rw [hp] at hx
    exact absurd hx (by simp)

/-- Full form of the pytube phase when both methods exhaust. -/
theorem downloadPytubePhase_both_none (env : DlEnv) (fs : FS)
    (vid output_dir : String) (max_retries : Nat)
    (hD : (tryMethod env fs vid output_dir .direct max_retries max_retries 0).2 = none)
    (hA : (tryMethod env fs vid output_dir .alternative max_retries max_retries 0).2 = none) :
    downloadPytubePhase env fs vid output_dir max_retries =
      ((create_fallback_audio_file fs output_dir vid).1,
        (tryMethod env fs vid output_dir .direct max_retries max_retries 0).1 ++
          (tryMethod env fs vid output_dir .alternative max_retries max_retries 0).1 ++
          (create_fallback_audio_file fs output_dir vid).2.1,
        (create_fallback_audio_file fs output_dir vid).2.2) := by
  simp only [downloadPytubePhase]
  rw [hD, hA]

/-- Full form of the pytube phase when the direct method returns a path. -/
theorem downloadPytubePhase_direct_some (env : DlEnv) (fs : FS)
    (vid output_dir : String) (max_retries : Nat) (p : String)
    (hD : (tryMethod env fs vid output_dir .direct max_retries max_retries 0).2 = some p) :
    downloadPytubePhase env fs vid output_dir max_retries =
      (fs, (tryMethod env fs vid output_dir .direct max_retries max_retries 0).1,
        Except.ok p) := by
  simp only [downloadPytubePhase]
  rw [hD]

/-- Full form of a successful fallback-file write. -/
theorem create_fallback_audio_file_ok_parts (fs : FS) (output_dir vid : String)
    (hw : fs.failWrite.contains (pathJoin output_dir ("fallback_" ++ vid ++ ".mp3")) = false) :
    (create_fallback_audio_file fs output_dir vid).2.1 = [Ev.fallbackAudio] ∧
    (create_fallback_audio_file fs output_dir vid).2.2 =
      Except.ok (pathJoin output_dir ("fallback_" ++ vid ++ ".mp3")) := by
  constructor <;>
    · simp only [create_fallback_audio_file, FS.write]
      rw [hw]
      simp

/-- C5 (amended): a non-retryable error short-circuits the retry loop —
no backoff sleep and no second attempt of the same method ever happens,
and the transcribe stage invokes its capability exactly once before
falling back immediately; but the fetch stage, after a non-retryable
error in its `direct` method, still tries its `alternative` method once
before the fallback, so the fetch capability is invoked twice, not
once. -/
theorem c5_nonretryable_short_circuit_amended (env : Env) (fs fsT : FS)
    (url p : String) (eD eA e : PyErr)
    (hy : env.dl.hasYtDlp = false)
    (hpD : env.dl.pytubeNew .direct 0 = Except.error eD) (hfD : eD.isPytubeFatal = true)
    (hpA : env.dl.pytubeNew .alternative 0 = Except.error eA) (hfA : eA.isPytubeFatal = true)
    (hmk : fs.failDirs.contains "downloads" = false)
    (hw : fs.failWrite.contains (pathJoin "downloads" ("fallback_" ++ videoIdOf url ++ ".mp3")) = false)
    (h1 : fsT.failDirs.contains "transcripts" = false)
    (h2 : fsT.fileExists (transcriptFileFor p "transcripts" none) = false)
    (h3 : pyIn "fallback_" ((splitext (basename p)).1) = false)
    (h3b : pyIn "fallback_" (basename p) = false)
    (h4 : fsT.fileExists p = true)
    (h5 : env.whisper p = Except.error e)
    (h6 : fsT.failWrite.contains (transcriptFileFor p "transcripts" none) = false) :
    ((download_youtube_audio env.dl fs url "downloads" 3).2.1 =
        [Ev.pytubeCall .direct 0, Ev.pytubeCall .alternative 0, Ev.fallbackAudio]) ∧
    ((download_youtube_audio env.dl fs url "downloads" 3).2.1.countP Ev.isBackoffSleep = 0) ∧
    ((download_youtube_audio env.dl fs url "downloads" 3).2.1.countP Ev.isPytubeCall = 2) ∧
    ((download_youtube_audio env.dl fs url "downloads" 3).2.2 =
        Except.ok (pathJoin "downloads" ("fallback_" ++ videoIdOf url ++ ".mp3"))) ∧
    ((transcribe_audio env.whisper fsT p "transcripts" none).2.1 =
        [Ev.whisperCall, Ev.mockTranscript]) ∧
    ((retry_with_backoff (fun f => transcribe_audio env.whisper f p "transcripts" none)
        3 5 60 env.retryJitter fsT).2.1.countP Ev.isWhisperCall = 1) ∧
    ((retry_with_backoff (fun f => transcribe_audio env.whisper f p "transcripts" none)
        3 5 60 env.retryJitter fsT).2.1.countP Ev.isRetrySleep = 0) := by
  have haD := pytubeAttempt_new_error env.dl { fs with dirs := "downloads" :: fs.dirs }
    (videoIdOf url) "downloads" .direct 0 eD hpD
  have haA := pytubeAttempt_new_error env.dl { fs with dirs := "downloads" :: fs.dirs }
    (videoIdOf url) "downloads" .alternative 0 eA hpA
  have hD : tryMethod env.dl { fs with dirs := "downloads" :: fs.dirs } (videoIdOf url)
      "downloads" .direct 3 3 0 = ([Ev.pytubeCall .direct 0], none) := by
    have h := tryMethod_fatal_stops env.dl { fs with dirs := "downloads" :: fs.dirs }
      (videoIdOf url) "downloads" .direct 3 2 0 eD (by rw [haD]) hfD
    rw [haD] at h
    exact h
  have hA : tryMethod env.dl { fs with dirs := "downloads" :: fs.dirs } (videoIdOf url)
      "downloads" .alternative 3 3 0 = ([Ev.pytubeCall .alternative 0], none) := by
    have h := tryMethod_fatal_stops env.dl { fs with dirs := "downloads" :: fs.dirs }
      (videoIdOf url) "downloads" .alternative 3 2 0 eA (by rw [haA]) hfA
    rw [haA] at h
    exact h
  have hphase := downloadPytubePhase_both_none env.dl { fs with dirs := "downloads" :: fs.dirs }
    (videoIdOf url) "downloads" 3 (by rw [hD]) (by rw [hA])
  rw [hD, hA] at hphase
  have hwf : ({ fs with dirs := "downloads" :: fs.dirs } : FS).failWrite.contains
      (pathJoin "downloads" ("fallback_" ++ videoIdOf url ++ ".mp3")) = false := hw
  have hfb := create_fallback_audio_file_ok_parts { fs with dirs := "downloads" :: fs.dirs }
    "downloads" (videoIdOf url) hwf
  have hdl : download_youtube_audio env.dl fs url "downloads" 3 =
      downloadPytubePhase env.dl { fs with dirs := "downloads" :: fs.dirs }
        (videoIdOf url) "downloads" 3 := by
    simp only [download_youtube_audio, FS.makedirs]
    rw [hmk]
    simp [hy]
  have hT := transcribe_api_error_mock env.whisper fsT p e h1 h2 h3 h3b h4 h5 h6
  have hR := retryGo_first_attempt_ok
    (fun f => transcribe_audio env.whisper f p "transcripts" none) 3 60 env.retryJitter fsT 5
    (some (transcriptFileFor p "transcripts" none),
      mockTranscriptText ("Note: Transcription failed with error: " ++ e.msg ++ "\n\n")
        ((splitext (basename p)).1)) 2 hT.2
  have hRw : retry_with_backoff (fun f => transcribe_audio env.whisper f p "transcripts" none)
      3 5 60 env.retryJitter fsT =
      ((transcribe_audio env.whisper fsT p "transcripts" none).1,
        (transcribe_audio env.whisper fsT p "transcripts" none).2.1,
        Except.ok (some (transcriptFileFor p "transcripts" none),
          mockTranscriptText ("Note: Transcription failed with error: " ++ e.msg ++ "\n\n")
            ((splitext (basename p)).1))) := hR
  refine ⟨?_, ?_, ?_, ?_, hT.1, ?_, ?_⟩
  · rw [hdl, hphase, hfb.1]
    simp
  · rw [hdl, hphase, hfb.1]
    simp [Ev.isBackoffSleep]
  · rw [hdl, hphase, hfb.1]
    simp [Ev.isPytubeCall]
  · rw [hdl, hphase]
    exact hfb.2
  · rw [hRw]
    simp only
    rw [hT.1]
    simp [Ev.isWhisperCall]
  · rw [hRw]
    simp only
    rw [hT.1]
    simp [Ev.isRetrySleep]

/-- `envBase` with every pytube construction failing with
`VideoUnavailable` — a non-retryable error. -/
def envVU : Env :=
  { envBase with dl := { envBase.dl with
      pytubeNew := fun _ _ => .error (.videoUnavailable "Video unavailable") } }

/-- Counterexample to C5 as stated: a `VideoUnavailable` on the first
attempt makes the fetch stage invoke its capability twice (once per
method), not exactly once, before the fallback runs — although no backoff
wait ever happens. -/
theorem c5_nonretryable_fetch_capability_invoked_twice :
    (download_youtube_audio envVU.dl fsEmpty "https://www.youtube.com/watch?v=VID1"
        "downloads" 3).2.1.countP Ev.isPytubeCall = 2 ∧
    ¬ ((download_youtube_audio envVU.dl fsEmpty "https://www.youtube.com/watch?v=VID1"
        "downloads" 3).2.1.countP Ev.isPytubeCall = 1) ∧
    (download_youtube_audio envVU.dl fsEmpty "https://www.youtube.com/watch?v=VID1"
        "downloads" 3).2.1.countP Ev.isBackoffSleep = 0 ∧
    (download_youtube_audio envVU.dl fsEmpty "https://www.youtube.com/watch?v=VID1"
        "downloads" 3).2.2 = Except.ok "downloads/fallback_VID1.mp3" :=
  ⟨rfl, by decide, rfl, rfl⟩

/-- Witness for the amended C5 at a concrete input. -/
theorem c5_nonretryable_short_circuit_amended_witness :
    (download_youtube_audio envVU.dl fsEmpty "https://www.youtube.com/watch?v=VID1"
        "downloads" 3).2.1 =
      [Ev.pytubeCall .direct 0, Ev.pytubeCall .alternative 0, Ev.fallbackAudio] ∧
    (transcribe_audio envVU.whisper fsAudio "downloads/VID1.mp3" "transcripts" none).2.1 =
      [Ev.whisperCall, Ev.mockTranscript] ∧
    (retry_with_backoff (fun f => transcribe_audio envVU.whisper f "downloads/VID1.mp3" "transcripts" none)
        3 5 60 envVU.retryJitter fsAudio).2.1.countP Ev.isRetrySleep = 0 := by
  have h := c5_nonretryable_short_circuit_amended envVU fsEmpty fsAudio
    "https://www.youtube.com/watch?v=VID1" "downloads/VID1.mp3"
    (PyErr.videoUnavailable "Video unavailable") (PyErr.videoUnavailable "Video unavailable")
    (PyErr.openAIErr "service unavailable")
    rfl rfl rfl rfl rfl rfl rfl rfl (by decide) (by decide) (by decide) rfl rfl rfl
  exact ⟨h.1, h.2.2.2.2.1, h.2.2.2.2.2.2⟩

/-- C7 (amended): the idempotent skip holds for the transcribe stage —
an existing transcript is returned with zero capability calls, unchanged
file contents and no mock marker added — and, within the fetch stage,
only for the pytube `direct` method, which still performs the metadata
fetch (`YouTube(url)`) before its existence check but skips the download;
with yt-dlp available the fetch stage never consults the existence check
(see the counterexample). -/
theorem c7_idempotent_skip_amended (env : Env) (whisper : String → Except PyErr String)
    (fs fsD : FS) (p title url : String) (u : Option String)
    (h1 : fs.failDirs.contains "transcripts" = false)
    (hf : fs.fileExists (transcriptFileFor p "transcripts" u) = true) :
    (transcribe_audio whisper fs p "transcripts" u =
      ({ fs with dirs := "transcripts" :: fs.dirs }, ([] : Tr),
        Except.ok (some (transcriptFileFor p "transcripts" u),
          (fs.read (transcriptFileFor p "transcripts" u)).getD ""))) ∧
    (env.dl.hasYtDlp = false →
      env.dl.pytubeNew .direct 0 = Except.ok title →
      fsD.failDirs.contains "downloads" = false →
      fsD.fileExists (pathJoin "downloads" (sanitizePy title ++ ".mp3")) = true →
      (download_youtube_audio env.dl fsD url "downloads" 3).2.2 =
          Except.ok (pathJoin "downloads" (sanitizePy title ++ ".mp3")) ∧
        (download_youtube_audio env.dl fsD url "downloads" 3).2.1 =
          [Ev.pytubeCall .direct 0, Ev.sleepOne]) := by
  constructor
  · have h1m : "transcripts" ∉ fs.failDirs := by simpa using h1
    have hfe : FS.fileExists { fs with dirs := "transcripts" :: fs.dirs }
        (transcriptFileFor p "transcripts" u) = true := hf
    simp [transcribe_audio, FS.makedirs, FS.read, h1m, hfe]
  · intro hy hok hmk hex
    have hfex : FS.fileExists { fsD with dirs := "downloads" :: fsD.dirs }
        (pathJoin "downloads" (sanitizePy title ++ ".mp3")) = true := hex
    have hatt : pytubeAttempt env.dl { fsD with dirs := "downloads" :: fsD.dirs }
        (videoIdOf url) "downloads" .direct 0 =
        ([Ev.pytubeCall .direct 0, Ev.sleepOne],
          Except.ok (pathJoin "downloads" (sanitizePy title ++ ".mp3"))) := by
      simp [pytubeAttempt, hok, hfex]
    have hD : tryMethod env.dl { fsD with dirs := "downloads" :: fsD.dirs } (videoIdOf url)
        "downloads" .direct 3 3 0 =
        ([Ev.pytubeCall .direct 0, Ev.sleepOne],
          some (pathJoin "downloads" (sanitizePy title ++ ".mp3"))) := by
      have h := tryMethod_attempt_ok env.dl { fsD with dirs := "downloads" :: fsD.dirs }
        (videoIdOf url) "downloads" .direct 3 2 0
        (pathJoin "downloads" (sanitizePy title ++ ".mp3")) (by rw [hatt])
      rw [hatt] at h
      exact h
    have hphase := downloadPytubePhase_direct_some env.dl
      { fsD with dirs := "downloads" :: fsD.dirs } (videoIdOf url) "downloads" 3
      (pathJoin "downloads" (sanitizePy title ++ ".mp3")) (by rw [hD])
    rw [hD] at hphase
    have hdl : download_youtube_audio env.dl fsD url "downloads" 3 =
        downloadPytubePhase env.dl { fsD with dirs := "downloads" :: fsD.dirs }
          (videoIdOf url) "downloads" 3 := by
      simp only [download_youtube_audio, FS.makedirs]
      rw [hmk]
      simp [hy]
    rw [hdl, hphase]
    exact ⟨rfl, rfl⟩

/-- Counterexample to C7 as stated: with yt-dlp available, the fetch
stage runs the yt-dlp capability even though its expected output artifact
`downloads/VID1.mp3` already exists — the "already produced" predicate is
never consulted on this path, so the stage does not perform zero
capability calls. -/
theorem c7_fetch_capability_runs_despite_existing_artifact :
    fsAudio.fileExists "downloads/VID1.mp3" = true ∧
    (download_youtube_audio envYt.dl fsAudio "https://www.youtube.com/watch?v=VID1"
        "downloads" 3).2.2 = Except.ok "downloads/VID1.mp3" ∧
    (download_youtube_audio envYt.dl fsAudio "https://www.youtube.com/watch?v=VID1"
        "downloads" 3).2.1.countP Ev.isYtdlpCall = 1 ∧
    ¬ ((download_youtube_audio envYt.dl fsAudio "https://www.youtube.com/watch?v=VID1"
        "downloads" 3).2.1.countP Ev.isYtdlpCall = 0) :=
  ⟨rfl, rfl, rfl, by decide⟩

/-- A filesystem already holding a transcript for `VID1`. -/
def fsTr : FS :=
  { files := [("transcripts/VID1.txt", "previous transcript"),
      ("downloads/VID1.mp3", "audio-bytes")],
    dirs := [], failWrite := [], failDirs := [] }

/-- `envBase` with the pytube construction succeeding (title `VID1`). -/
def envPT : Env :=
  { envBase with dl := { envBase.dl with pytubeNew := fun _ _ => .ok "VID1" } }

/-- Witness for the amended C7: an existing transcript is returned with an
empty trace, and the pytube `direct` method returns the cached audio with
no stream download. -/
theorem c7_idempotent_skip_amended_witness :
    (transcribe_audio envPT.whisper fsTr "downloads/VID1.mp3" "transcripts"
        (some "https://www.youtube.com/watch?v=VID1") =
      ({ fsTr with dirs := "transcripts" :: fsTr.dirs }, ([] : Tr),
        Except.ok (some "transcripts/VID1.txt", "previous transcript"))) ∧
    (download_youtube_audio envPT.dl fsAudio "https://www.youtube.com/watch?v=VID1"
        "downloads" 3).2.1 = [Ev.pytubeCall .direct 0, Ev.sleepOne] := by
  have h := c7_idempotent_skip_amended envPT envPT.whisper fsTr fsAudio
    "downloads/VID1.mp3" "VID1" "https://www.youtube.com/watch?v=VID1"
    (some "https://www.youtube.com/watch?v=VID1") rfl rfl
  exact ⟨h.1, (h.2 rfl rfl rfl rfl).2⟩

/-- The exact text the transcribe fallback produces when Whisper reports
`service unavailable` for video `VID1`. -/
def c3MockStr : String :=
  mockTranscriptText "Note: Transcription failed with error: service unavailable\n\n" "VID1"

/-- `envYt` with a Whisper oracle whose genuine transcription happens to
equal the fallback text `c3MockStr`. -/
def envWhisperMock : Env := { envYt with whisper := fun _ => .ok c3MockStr }

/-- Counterexample to C3 as stated: two runs on the same filesystem — one
whose transcription succeeds genuinely (returning text equal to the
fallback text), one whose transcription fails and falls back — produce
identical final Pipeline States (and identical filesystems).  The state
record therefore carries no degraded set: no reading of the final state
can report which stages used fallback data, and the fallback-produced
transcript is indistinguishable from the genuine one. -/
theorem c3_final_state_does_not_determine_degradation :
    (runGraph envWhisperMock fsAudio (initial_state "https://www.youtube.com/watch?v=VID1" "p")).2.2 =
      (runGraph envYt fsAudio (initial_state "https://www.youtube.com/watch?v=VID1" "p")).2.2 ∧
    (runGraph envWhisperMock fsAudio (initial_state "https://www.youtube.com/watch?v=VID1" "p")).1 =
      (runGraph envYt fsAudio (initial_state "https://www.youtube.com/watch?v=VID1" "p")).1 ∧
    (runGraph envWhisperMock fsAudio (initial_state "https://www.youtube.com/watch?v=VID1" "p")).2.1.countP
      Ev.isMockTranscript = 0 ∧
    (runGraph envWhisperMock fsAudio (initial_state "https://www.youtube.com/watch?v=VID1" "p")).2.1.countP
      Ev.isWhisperCall = 1 ∧
    (runGraph envYt fsAudio (initial_state "https://www.youtube.com/watch?v=VID1" "p")).2.1.countP
      Ev.isMockTranscript = 1 :=
  ⟨rfl, rfl, rfl, rfl, rfl⟩

/-- C3 (amended): the pipeline state carries no degraded set; the only
degradation marking is in-band, in the values themselves — the fallback
audio path contains `fallback_`, every mock transcript contains its
marker sentence, every mock summary contains its marker sentence — and
(per the counterexample) such in-band markers can equally occur in
genuine capability output. -/
theorem c3_fallback_values_marked_in_band (fs : FS)
    (dir vid message vid2 prompt vid3 : String)
    (hw : fs.failWrite.contains (pathJoin dir ("fallback_" ++ vid ++ ".mp3")) = false) :
    ((create_fallback_audio_file fs dir vid).2.2 =
        Except.ok (pathJoin dir ("fallback_" ++ vid ++ ".mp3"))) ∧
    pyIn "fallback_" (pathJoin dir ("fallback_" ++ vid ++ ".mp3")) = true ∧
    pyIn mockTranscriptMarker (mockTranscriptText message vid2) = true ∧
    pyIn mockSummaryMarker (mockSummaryText prompt vid3) = true := by
  refine ⟨(create_fallback_audio_file_ok_parts fs dir vid hw).2, ?_,
    pyIn_mockTranscriptText message vid2, pyIn_mockSummaryText prompt vid3⟩
  have hsplit : pathJoin dir ("fallback_" ++ vid ++ ".mp3") =
      (dir ++ "/") ++ ("fallback_" ++ (vid ++ ".mp3")) := by
    simp [pathJoin, String.append_assoc]
  rw [hsplit]
  exact pyIn_parts (dir ++ "/") "fallback_" (vid ++ ".mp3")

/-- Witness for the amended C3 at concrete values. -/
theorem c3_fallback_values_marked_in_band_witness :
    ((create_fallback_audio_file fsEmpty "downloads" "VID1").2.2 =
        Except.ok "downloads/fallback_VID1.mp3") ∧
    pyIn "fallback_" "downloads/fallback_VID1.mp3" = true ∧
    pyIn mockTranscriptMarker (mockTranscriptText "" "VID1") = true ∧
    pyIn mockSummaryMarker (mockSummaryText "p" "VID1") = true :=
  c3_fallback_values_marked_in_band fsEmpty "downloads" "VID1" "" "VID1" "p" "VID1" rfl

/-- C9 (amended): degradation propagates downstream by value inspection,
provided the stage's output artifact does not already exist and the
output directory can be used.  (a) On a `fallback_`-named audio file with
no pre-existing transcript, `transcribe_audio` performs zero Whisper
calls and produces a mock transcript; (b) that mock transcript contains
the marker sentence; (c) on any marker-containing text,
`summarize_text` performs zero LLM calls and produces a mock summary. -/
theorem c9_degradation_propagates_amended
    (whisper : String → Except PyErr String) (llm : String → String → Except PyErr String)
    (fs fsS : FS) (p text prompt : String) (u : Option String)
    (h1 : fs.failDirs.contains "transcripts" = false)
    (h2 : fs.fileExists (transcriptFileFor p "transcripts" u) = false)
    (h3 : pyIn "fallback_" ((splitext (basename p)).1) = true)
    (h6 : fs.failWrite.contains (transcriptFileFor p "transcripts" u) = false) :
    ((transcribe_audio whisper fs p "transcripts" u).2.1 = [Ev.mockTranscript]) ∧
    ((transcribe_audio whisper fs p "transcripts" u).2.2 =
      Except.ok (some (transcriptFileFor p "transcripts" u),
        mockTranscriptText ""
          (if pyIn "fallback_" (basename p) = true then
            pyReplace (pyReplace (basename p) "fallback_" "") ".mp3" ""
          else (splitext (basename p)).1))) ∧
    (∀ vid2, pyIn mockTranscriptMarker (mockTranscriptText "" vid2) = true) ∧
    (fsS.dirExists "summaries" = true →
      pyIn mockTranscriptMarker text = true →
      fsS.failWrite.contains
        (pathJoin "summaries" ("summary_" ++ sanitizePy (pySlice prompt 50) ++ ".txt")) = false →
      (summarize_text llm fsS text prompt "summaries").2.1 = [Ev.mockSummary] ∧
      (summarize_text llm fsS text prompt "summaries").2.2 =
        Except.ok (some (pathJoin "summaries" ("summary_" ++ sanitizePy (pySlice prompt 50) ++ ".txt")),
          mockSummaryText prompt ((extractMockVid (pySplit text "\n")).getD "unknown"))) := by
  have h1m : "transcripts" ∉ fs.failDirs := by simpa using h1
  have h6m : transcriptFileFor p "transcripts" u ∉ fs.failWrite := by simpa using h6
  have hfe : FS.fileExists { fs with dirs := "transcripts" :: fs.dirs }
      (transcriptFileFor p "transcripts" u) = false := h2
  refine ⟨?_, ?_, fun vid2 => pyIn_mockTranscriptText "" vid2, ?_⟩
  · simp [transcribe_audio, FS.makedirs, create_mock_transcript, FS.write,
      h1m, hfe, h3, h6m]
  · simp [transcribe_audio, FS.makedirs, create_mock_transcript, FS.write,
      h1m, hfe, h3, h6m]
  · intro hd hmark hw2
    have hw2m : pathJoin "summaries" ("summary_" ++ sanitizePy (pySlice prompt 50) ++ ".txt")
        ∉ fsS.failWrite := by simpa using hw2
    constructor <;>
      simp [summarize_text, hd, hmark, create_mock_summary, FS.write, hw2m]

/-- A filesystem holding a genuine, marker-free transcript for `VID1`
left over from an earlier run. -/
def fsGenuineTr : FS :=
  { files := [("transcripts/VID1.txt", "The weather was lovely.")],
    dirs := [], failWrite := [], failDirs := [] }

/-- `envBase` with a working LLM oracle. -/
def envC9 : Env := { envBase with llm := fun _ _ => .ok "A real summary." }

/-- Counterexample to C9 as stated: in a pipeline run whose fetch stage
degrades to the fallback audio file but whose transcript artifact already
exists from an earlier genuine run, the transcribe stage returns that
existing marker-free transcript instead of producing a mock one, and the
summarize stage then invokes the real LLM — so a degraded fetch does not
stop downstream real capabilities.  Moreover the summarize stage's
mock-summary branch is not total: with an uncreatable `summaries`
directory it raises instead of producing a mock summary. -/
theorem c9_existing_transcript_breaks_propagation :
    (runGraph envC9 fsGenuineTr (initial_state "https://www.youtube.com/watch?v=VID1" "p")).2.1.countP
      Ev.isFallbackAudio = 1 ∧
    (runGraph envC9 fsGenuineTr (initial_state "https://www.youtube.com/watch?v=VID1" "p")).2.1.countP
      Ev.isMockTranscript = 0 ∧
    (runGraph envC9 fsGenuineTr (initial_state "https://www.youtube.com/watch?v=VID1" "p")).2.1.countP
      Ev.isLlmCall = 1 ∧
    (summarize_text envBase.llm fsNoSummaries
        "This is a mock transcript for testing purposes." "p" "summaries").2.2 =
      Except.error (PyErr.nameError "safe_prompt") :=
  ⟨rfl, rfl, rfl, rfl⟩

/-- Witness for the amended C9 at concrete values. -/
theorem c9_degradation_propagates_amended_witness :
    ((transcribe_audio envC9.whisper fsEmpty "downloads/fallback_VID1.mp3" "transcripts" none).2.1 =
      [Ev.mockTranscript]) ∧
    ((summarize_text envC9.llm { fsEmpty with dirs := ["summaries"] }
        (mockTranscriptText "" "VID1") "p" "summaries").2.1 = [Ev.mockSummary]) := by
  have h := c9_degradation_propagates_amended envC9.whisper envC9.llm fsEmpty
    { fsEmpty with dirs := ["summaries"] } "downloads/fallback_VID1.mp3"
    (mockTranscriptText "" "VID1") "p" none rfl rfl (by decide) rfl
  exact ⟨h.1, (h.2.2.2 rfl (by decide) rfl).1⟩

end Transcriber
